import Mathlib

/-!
A shallow embedding of the CLite language front-end and interpreter
(lang/tokens.py, lang/lexer.py, lang/parser.py, lang/ast.py,
lang/interpreter.py), together with theorems settling the claims about it.

Machine integers do not occur (Python integers are unbounded); numeric
values are modelled as `Int` for Python `int` and `ℚ` for Python `float`
(the float literals and quotients appearing in the claims are exactly
representable). Python exceptions are modelled as explicit result values.
All interpreter recursion is driven by an explicit fuel parameter; every
theorem below evaluates with fuel large enough that fuel exhaustion never
occurs.
-/

set_option maxRecDepth 100000

namespace CLite

/-! ### Tokens (lang/tokens.py) -/

/-- `TokenType` enum from lang/tokens.py. -/
inductive TokenType where
  | IDENT | INT | FLOAT | STRING
  | OP
  | KEYWORD | EOF
  | LBRACE | RBRACE | LPAREN | RPAREN | LBRACKET | RBRACKET
  | SEMICOLON | COMMA | DOT | COLON | ASSIGN | END
deriving Repr, DecidableEq

/-- `Token` dataclass from lang/tokens.py: kind, lexeme, 1-based line/column. -/
structure Token where
  type : TokenType
  value : String
  line : Nat
  column : Nat
deriving Repr, DecidableEq

/-- The `KEYWORDS` set from lang/tokens.py. -/
def KEYWORDS : List String :=
  ["if", "else", "while", "for", "return", "break", "continue",
   "let", "fn",
   "struct", "typedef", "var", "const", "func",
   "true", "false", "null"]

/-- The `OPERATORS` list from lang/tokens.py. The lexer sorts it by
descending length with a stable sort; since the list already has all
two-character operators first (in order) followed by the one-character
ones, the sorted list `_OP_LITERALS` is this very list. -/
def OPERATORS : List String :=
  ["==", "!=", "<=", ">=", "&&", "||", "++", "--",
   "+=", "-=", "*=", "/=", "%=", "->", "<<", ">>",
   "+", "-", "*", "/", "%", "<", ">", "=", "!", "&", "|", "^", "~",
   "(", ")", "\x7b", "\x7d", "[", "]", ";", ",", ".", ":", "?"]

/-! ### Lexer (lang/lexer.py)

The master regex is an ordered alternation of anchored patterns; Python's
`re` alternation takes the first alternative that matches at the current
position. Each alternative is embedded as a matcher returning the number
of characters it consumes (the regex is deterministic here, see each
matcher's comment). -/

/-- `[0-9]`. -/
def isDigitC (c : Char) : Bool := '0' ≤ c && c ≤ '9'

/-- `[A-Za-z_]`. -/
def isAlphaU (c : Char) : Bool :=
  ('a' ≤ c && c ≤ 'z') || ('A' ≤ c && c ≤ 'Z') || c == '_'

/-- `\w`, i.e. `[A-Za-z0-9_]`. -/
def isWordC (c : Char) : Bool := isAlphaU c || isDigitC c

/-- Length of the longest prefix whose characters satisfy `p`. -/
def takeLen (p : Char → Bool) : List Char → Nat
  | [] => 0
  | c :: cs => if p c then takeLen p cs + 1 else 0

/-- Does `pre` occur as a prefix of `cs`? -/
def listStarts : List Char → List Char → Bool
  | [], _ => true
  | _ :: _, [] => false
  | p :: ps, c :: cs => p == c && listStarts ps cs

/-- `(?P<SKIP>[ \t\r]+)`. -/
def matchSkip (cs : List Char) : Option Nat :=
  let n := takeLen (fun c => c == ' ' || c == '\t' || c == '\r') cs
  if n == 0 then none else some n

/-- `(?P<LINE_COMMENT>//[^\n]*)`. -/
def matchLineComment : List Char → Option Nat
  | '/' :: '/' :: rest => some (2 + takeLen (fun c => !(c == '\n')) rest)
  | _ => none

/-- Characters consumed by the non-greedy `.*?\*/` after `/*`: up to and
including the earliest `*/` (DOTALL, so newlines are included). -/
def findCloseLen : List Char → Option Nat
  | '*' :: '/' :: _ => some 2
  | _ :: rest => (findCloseLen rest).map (· + 1)
  | [] => none

/-- `(?P<BLOCK_COMMENT>/\*.*?\*/)`; fails when no closing `*/` exists. -/
def matchBlockComment : List Char → Option Nat
  | '/' :: '*' :: rest => (findCloseLen rest).map (· + 2)
  | _ => none

/-- Body of `(?P<STRING>\"([^\\\n\"]|\\.)*\")` after the opening quote:
each item is either a character other than backslash, newline and quote,
or a backslash followed by any character (DOTALL); then the closing
quote. Returns characters consumed including the closing quote. -/
def strBodyLen : List Char → Option Nat
  | '"' :: _ => some 1
  | '\\' :: _ :: rest => (strBodyLen rest).map (· + 2)
  | '\n' :: _ => none
  | '\\' :: [] => none
  | [] => none
  | _ :: rest => (strBodyLen rest).map (· + 1)

/-- `(?P<STRING>...)` including both quotes. -/
def matchString : List Char → Option Nat
  | '"' :: rest => (strBodyLen rest).map (· + 1)
  | _ => none

/-- `(?P<FLOAT>\d+\.\d+)`: digits on both sides of the dot are required. -/
def matchFloat (cs : List Char) : Option Nat :=
  let d1 := takeLen isDigitC cs
  if d1 == 0 then none
  else
    match cs.drop d1 with
    | '.' :: rest =>
      let d2 := takeLen isDigitC rest
      if d2 == 0 then none else some (d1 + 1 + d2)
    | _ => none

/-- `(?P<INT>\d+)`. -/
def matchInt (cs : List Char) : Option Nat :=
  let d := takeLen isDigitC cs
  if d == 0 then none else some d

/-- `(?P<IDENT>[A-Za-z_]\w*)`. -/
def matchIdent : List Char → Option Nat
  | c :: rest => if isAlphaU c then some (1 + takeLen isWordC rest) else none
  | [] => none

/-- `(?P<OP>...)`: the first operator literal (longest first, the order of
`_OP_LITERALS`) that is a prefix of the input. -/
def matchOper (cs : List Char) : Option String :=
  OPERATORS.findSome? fun op => if listStarts op.data cs then some op else none

/-- The lexer's mapping of operator/punctuation lexemes to `TokenType`. -/
def opTokType (s : String) : TokenType :=
  if s == "=" then .ASSIGN
  else if s == ";" then .END
  else if s == "(" then .LPAREN
  else if s == ")" then .RPAREN
  else if s == "\x7b" then .LBRACE
  else if s == "\x7d" then .RBRACE
  else if s == "[" then .LBRACKET
  else if s == "]" then .RBRACKET
  else if s == "," then .COMMA
  else if s == "." then .DOT
  else if s == ":" then .COLON
  else .OP

/-- The error raised by `tokenize`: Python's
`SyntaxError(f"Unexpected character: \x7bch\x7d")` carries only the
message string. -/
inductive LexError where
  | err (msg : String)
deriving Repr, DecidableEq

/-- The scanning loop of `tokenize`: remaining characters, absolute
position, current line, absolute offset of the current line's start,
tokens accumulated so far. Fuel is the source length plus one; every step
consumes at least one character. -/
def tokenizeGo : Nat → List Char → Nat → Nat → Nat → List Token →
    Except LexError (List Token)
  | 0, _, _, _, _, _ => .error (.err "out of fuel")
  | _ + 1, [], _, _, _, acc => .ok acc
  | fuel + 1, cs@(ch :: rest), pos, line, lineStart, acc =>
    if ch == '\n' then
      tokenizeGo fuel rest (pos + 1) (line + 1) (pos + 1) acc
    else match matchSkip cs with
    | some n => tokenizeGo fuel (cs.drop n) (pos + n) line lineStart acc
    | none => match matchLineComment cs with
    | some n => tokenizeGo fuel (cs.drop n) (pos + n) line lineStart acc
    | none => match matchBlockComment cs with
    | some n => tokenizeGo fuel (cs.drop n) (pos + n) line lineStart acc
    | none =>
      let column := pos - lineStart + 1
      match matchString cs with
      | some n =>
        tokenizeGo fuel (cs.drop n) (pos + n) line lineStart
          (acc ++ [⟨.STRING, String.mk (cs.take n), line, column⟩])
      | none => match matchFloat cs with
      | some n =>
        tokenizeGo fuel (cs.drop n) (pos + n) line lineStart
          (acc ++ [⟨.FLOAT, String.mk (cs.take n), line, column⟩])
      | none => match matchInt cs with
      | some n =>
        tokenizeGo fuel (cs.drop n) (pos + n) line lineStart
          (acc ++ [⟨.INT, String.mk (cs.take n), line, column⟩])
      | none => match matchIdent cs with
      | some n =>
        let lexeme := String.mk (cs.take n)
        let ty : TokenType := if KEYWORDS.contains lexeme then .KEYWORD else .IDENT
        tokenizeGo fuel (cs.drop n) (pos + n) line lineStart
          (acc ++ [⟨ty, lexeme, line, column⟩])
      | none => match matchOper cs with
      | some op =>
        let n := op.data.length
        tokenizeGo fuel (cs.drop n) (pos + n) line lineStart
          (acc ++ [⟨opTokType op, op, line, column⟩])
      | none =>
        -- No alternative matched. (The whitespace skip below is the
        -- unreachable branch of the Python code, kept for fidelity.)
        if ch == '\n' || ch == ' ' || ch == '\t' || ch == '\r' then
          tokenizeGo fuel rest (pos + 1) line lineStart acc
        else
          .error (.err ("Unexpected character: " ++ String.mk [ch]))

/-- `tokenize(code)` from lang/lexer.py. -/
def tokenize (code : String) : Except LexError (List Token) :=
  tokenizeGo (code.data.length + 1) code.data 0 1 0 []

/-! ### AST (lang/ast.py)

The parser stores a raw `Token` instead of an expression node on the
right-hand side of `return` and of assignments (it unwraps `Literal`
nodes); `eval_expr` accepts either. `ETok` is that tagged union. A
statement position can hold a plain list of statements (a block) or an
expression (an expression statement); `Stmt.block` and `Stmt.exprStmt`
play those roles. -/

/-- Expression nodes: `BinaryExpr`, `UnaryExpr`, `Literal`, `Identifier`,
`CallExpr`. -/
inductive Expr where
  | binary (left : Expr) (operator : Token) (right : Expr)
  | unary (operator : Token) (operand : Expr)
  | literal (value : Token)
  | ident (name : Token)
  | call (callee : Expr) (args : List Expr)
deriving Repr

/-- A raw token or an expression node (parser quirk, spec §4.2). -/
inductive ETok where
  | tok (t : Token)
  | expr (e : Expr)
deriving Repr

/-- Statement nodes. `funcDecl` carries name, params (name and type
tokens) and body; the parsed return type is discarded by the parser. -/
inductive Stmt where
  | varDecl (varName : Token) (varType : Token) (initValue : ETok)
  | assign (varName : Token) (value : ETok)
  | ifS (condition : ETok) (thenBranch : Stmt) (elseBranch : Option Stmt)
  | whileS (condition : ETok) (body : Stmt)
  | forS (init : Stmt) (condition : ETok) (increment : Stmt) (body : Stmt)
  | ret (value : ETok)
  | brk
  | cont
  | funcDecl (funcName : Token) (params : List (Token × Token)) (body : List Stmt)
  | exprStmt (e : Expr)
  | block (stmts : List Stmt)
deriving Repr

/-! ### Parser (lang/parser.py)

A recursive-descent parser over a token suffix (the Python class keeps an
index into the token list; consuming a suffix is the same thing). All
mutually recursive parsing functions are packed into one fuel-indexed
function `parseStep` over a job type, so that evaluation reduces in the
kernel. -/

/-- Parse failures: the `Exception`s raised in lang/parser.py. -/
inductive PErr where
  | unexpectedEOF
  | expectedTok (expected : TokenType) (got : TokenType)
  | expectedVal (expected : String) (got : String)
  | unexpectedTokenInExpr (t : Token)
  | invalidAssignTarget
  | internalErr
deriving Repr, DecidableEq

/-- What a parse job yields. -/
inductive PRes where
  | re (e : Expr)
  | rs (s : Stmt)
  | rl (l : List Stmt)
  | rps (ps : List (Token × Token))
  | rargs (l : List Expr)
deriving Repr

/-- The parsing jobs: one constructor per parsing function or loop of the
Python parser. `jexprP lvl` is the precedence chain: levels 0-5 are the
binary levels (`parse_or` .. `parse_multiplicative`), 6 is `parse_unary`,
7 is `parse_call`, 8 is `parse_primary`. -/
inductive PJob where
  | jprogram (acc : List Stmt)
  | jstmtP
  | jblockP
  | jblockLoop (acc : List Stmt)
  | jparamsLoop (acc : List (Token × Token))
  | jaoe
  | jexprP (lvl : Nat)
  | jbinLoop (lvl : Nat) (acc : Expr)
  | jcallLoop (acc : Expr)
  | jargsLoop (acc : List Expr)

/-- `expect` / `expect_type`: consume a token of the given type or fail. -/
def expectTy : List Token → TokenType → Except PErr (Token × List Token)
  | [], _ => .error .unexpectedEOF
  | t :: ts, ty => if t.type = ty then .ok (t, ts) else .error (.expectedTok ty t.type)

/-- `expect_value`: consume a token with the given lexeme or fail. -/
def expectVal : List Token → String → Except PErr (Token × List Token)
  | [], _ => .error .unexpectedEOF
  | t :: ts, v => if t.value = v then .ok (t, ts) else .error (.expectedVal v t.value)

/-- `_check_value`: does the next token have this lexeme? (`false` at end
of input.) -/
def checkVal (ts : List Token) (v : String) : Bool :=
  match ts with
  | [] => false
  | t :: _ => t.value == v

/-- `_check_type` / `match`: does the next token have this type? -/
def checkTy (ts : List Token) (ty : TokenType) : Bool :=
  match ts with
  | [] => false
  | t :: _ => t.type == ty

/-- The literal-unwrapping quirk of `parse_return_stmt` and
`parse_assign_or_expr_stmt`: a `Literal` becomes its raw token. -/
def unwrapLit : Expr → ETok
  | .literal t => .tok t
  | e => .expr e

/-- Project an expression result. -/
def asE : Except PErr (PRes × List Token) → Except PErr (Expr × List Token)
  | .ok (.re e, ts) => .ok (e, ts)
  | .ok _ => .error .internalErr
  | .error e => .error e

/-- Project a statement result. -/
def asS : Except PErr (PRes × List Token) → Except PErr (Stmt × List Token)
  | .ok (.rs s, ts) => .ok (s, ts)
  | .ok _ => .error .internalErr
  | .error e => .error e

/-- Project a statement-list result. -/
def asL : Except PErr (PRes × List Token) → Except PErr (List Stmt × List Token)
  | .ok (.rl l, ts) => .ok (l, ts)
  | .ok _ => .error .internalErr
  | .error e => .error e

/-- Project a parameter-list result. -/
def asPs : Except PErr (PRes × List Token) →
    Except PErr (List (Token × Token) × List Token)
  | .ok (.rps l, ts) => .ok (l, ts)
  | .ok _ => .error .internalErr
  | .error e => .error e

/-- Project an argument-list result. -/
def asArgs : Except PErr (PRes × List Token) → Except PErr (List Expr × List Token)
  | .ok (.rargs l, ts) => .ok (l, ts)
  | .ok _ => .error .internalErr
  | .error e => .error e

/-- The operator lexemes of each binary precedence level (`parse_or`,
`parse_and`, `parse_equality`, `parse_relational`, `parse_additive`,
`parse_multiplicative`). -/
def levelOps : Nat → List String
  | 0 => ["||"]
  | 1 => ["&&"]
  | 2 => ["==", "!="]
  | 3 => ["<", "<=", ">", ">="]
  | 4 => ["+", "-"]
  | 5 => ["*", "/", "%"]
  | _ => []

/-- The whole recursive-descent parser as a single fuel-indexed step
function; each case transcribes the corresponding Python method. -/
def parseStep : Nat → PJob → List Token → Except PErr (PRes × List Token)
  | 0, _, _ => .error .internalErr
  | fuel + 1, job, ts =>
    match job with
    | .jprogram acc =>
      -- parse: while tokens remain, parse a statement.
      match ts with
      | [] => .ok (.rl acc, [])
      | _ :: _ => do
        let (s, ts1) ← asS (parseStep fuel .jstmtP ts)
        parseStep fuel (.jprogram (acc ++ [s])) ts1
    | .jstmtP =>
      -- parse_statement: dispatch on the first token.
      match ts with
      | [] => .error .unexpectedEOF
      | t :: rest =>
        if t.type = .KEYWORD && t.value = "let" then do
          -- parse_var_decl: let IDENT : IDENT = expr ;
          let (varName, ts1) ← expectTy rest .IDENT
          let (_, ts2) ← expectVal ts1 ":"
          let (varType, ts3) ← expectTy ts2 .IDENT
          let (_, ts4) ← expectVal ts3 "="
          let (init, ts5) ← asE (parseStep fuel (.jexprP 0) ts4)
          let (_, ts6) ← expectTy ts5 .END
          .ok (.rs (.varDecl varName varType (.expr init)), ts6)
        else if t.type = .KEYWORD && t.value = "fn" then do
          -- parse_func_decl: fn IDENT ( params ) : IDENT block
          let (funcName, ts1) ← expectTy rest .IDENT
          let (_, ts2) ← expectTy ts1 .LPAREN
          let (params, ts3) ← asPs (parseStep fuel (.jparamsLoop []) ts2)
          let (_, ts4) ← expectTy ts3 .RPAREN
          let (_, ts5) ← expectVal ts4 ":"
          let (_, ts6) ← expectTy ts5 .IDENT
          let (body, ts7) ← asL (parseStep fuel .jblockP ts6)
          .ok (.rs (.funcDecl funcName params body), ts7)
        else if t.type = .KEYWORD && t.value = "if" then do
          -- parse_if_stmt (note: the else-lookahead uses peek, which
          -- fails at end of input).
          let (_, ts1) ← expectTy rest .LPAREN
          let (cond, ts2) ← asE (parseStep fuel (.jexprP 0) ts1)
          let (_, ts3) ← expectTy ts2 .RPAREN
          let (thenB, ts4) ← asS (parseStep fuel .jstmtP ts3)
          match ts4 with
          | [] => .error .unexpectedEOF
          | t2 :: rest2 =>
            if t2.type = .KEYWORD && t2.value = "else" then do
              let (elseB, ts5) ← asS (parseStep fuel .jstmtP rest2)
              .ok (.rs (.ifS (.expr cond) thenB (some elseB)), ts5)
            else
              .ok (.rs (.ifS (.expr cond) thenB none), ts4)
        else if t.type = .KEYWORD && t.value = "while" then do
          let (_, ts1) ← expectTy rest .LPAREN
          let (cond, ts2) ← asE (parseStep fuel (.jexprP 0) ts1)
          let (_, ts3) ← expectTy ts2 .RPAREN
          let (body, ts4) ← asS (parseStep fuel .jstmtP ts3)
          .ok (.rs (.whileS (.expr cond) body), ts4)
        else if t.type = .KEYWORD && t.value = "for" then do
          -- parse_for_stmt: for ( assignOrExpr expr ; assignOrExpr ) stmt
          let (_, ts1) ← expectTy rest .LPAREN
          let (init, ts2) ← asS (parseStep fuel .jaoe ts1)
          let (cond, ts3) ← asE (parseStep fuel (.jexprP 0) ts2)
          let (_, ts4) ← expectTy ts3 .END
          let (inc, ts5) ← asS (parseStep fuel .jaoe ts4)
          let (_, ts6) ← expectTy ts5 .RPAREN
          let (body, ts7) ← asS (parseStep fuel .jstmtP ts6)
          .ok (.rs (.forS init (.expr cond) inc body), ts7)
        else if t.type = .KEYWORD && t.value = "return" then do
          let (v, ts1) ← asE (parseStep fuel (.jexprP 0) rest)
          let (_, ts2) ← expectTy ts1 .END
          .ok (.rs (.ret (unwrapLit v)), ts2)
        else if t.type = .KEYWORD && t.value = "break" then do
          let (_, ts1) ← expectTy rest .END
          .ok (.rs .brk, ts1)
        else if t.type = .KEYWORD && t.value = "continue" then do
          let (_, ts1) ← expectTy rest .END
          .ok (.rs .cont, ts1)
        else if t.type = .LBRACE then do
          let (l, ts1) ← asL (parseStep fuel .jblockP ts)
          .ok (.rs (.block l), ts1)
        else
          parseStep fuel .jaoe ts
    | .jaoe => do
      -- parse_assign_or_expr_stmt
      let (e, ts1) ← asE (parseStep fuel (.jexprP 0) ts)
      if checkTy ts1 .ASSIGN then do
        let (v, ts2) ← asE (parseStep fuel (.jexprP 0) (ts1.drop 1))
        let (_, ts3) ← expectTy ts2 .END
        match e with
        | .ident nameTok => .ok (.rs (.assign nameTok (unwrapLit v)), ts3)
        | _ => .error .invalidAssignTarget
      else do
        let (_, ts2) ← expectTy ts1 .END
        .ok (.rs (.exprStmt e), ts2)
    | .jblockP => do
      -- parse_block: expect LBRACE, then statements until RBRACE.
      let (_, ts1) ← expectTy ts .LBRACE
      parseStep fuel (.jblockLoop []) ts1
    | .jblockLoop acc =>
      if checkTy ts .RBRACE then .ok (.rl acc, ts.drop 1)
      else do
        let (s, ts1) ← asS (parseStep fuel .jstmtP ts)
        parseStep fuel (.jblockLoop (acc ++ [s])) ts1
    | .jparamsLoop acc =>
      -- parse_params (the loop condition uses peek, which fails at EOF).
      match ts with
      | [] => .error .unexpectedEOF
      | t :: rest =>
        if t.type = .IDENT then do
          let (_, ts1) ← expectVal rest ":"
          let (paramType, ts2) ← expectTy ts1 .IDENT
          let acc1 := acc ++ [(t, paramType)]
          if checkTy ts2 .COMMA then
            parseStep fuel (.jparamsLoop acc1) (ts2.drop 1)
          else
            .ok (.rps acc1, ts2)
        else
          .ok (.rps acc, ts)
    | .jexprP lvl =>
      if lvl ≤ 5 then do
        let (e, ts1) ← asE (parseStep fuel (.jexprP (lvl + 1)) ts)
        parseStep fuel (.jbinLoop lvl e) ts1
      else if lvl = 6 then
        -- parse_unary
        match ts with
        | t :: rest =>
          if t.value = "!" || t.value = "-" then do
            let (operand, ts1) ← asE (parseStep fuel (.jexprP 6) rest)
            .ok (.re (.unary t operand), ts1)
          else
            parseStep fuel (.jexprP 7) ts
        | [] => parseStep fuel (.jexprP 7) ts
      else if lvl = 7 then do
        -- parse_call
        let (e, ts1) ← asE (parseStep fuel (.jexprP 8) ts)
        parseStep fuel (.jcallLoop e) ts1
      else
        -- parse_primary
        match ts with
        | [] => .error .unexpectedEOF
        | t :: rest =>
          if t.type = .INT || t.type = .FLOAT || t.type = .STRING then
            .ok (.re (.literal t), rest)
          else if t.type = .KEYWORD &&
              (t.value = "true" || t.value = "false" || t.value = "null") then
            .ok (.re (.literal t), rest)
          else if t.type = .IDENT then
            .ok (.re (.ident t), rest)
          else if t.type = .LPAREN then do
            let (e, ts1) ← asE (parseStep fuel (.jexprP 0) rest)
            let (_, ts2) ← expectTy ts1 .RPAREN
            .ok (.re e, ts2)
          else
            .error (.unexpectedTokenInExpr t)
    | .jbinLoop lvl acc =>
      match ts with
      | t :: rest =>
        if (levelOps lvl).contains t.value then do
          let (right, ts1) ← asE (parseStep fuel (.jexprP (lvl + 1)) rest)
          parseStep fuel (.jbinLoop lvl (.binary acc t right)) ts1
        else
          .ok (.re acc, ts)
      | [] => .ok (.re acc, ts)
    | .jcallLoop acc =>
      if checkTy ts .LPAREN then do
        let ts1 := ts.drop 1
        if checkTy ts1 .RPAREN then do
          let (_, ts2) ← expectTy ts1 .RPAREN
          parseStep fuel (.jcallLoop (.call acc [])) ts2
        else do
          let (first, ts2) ← asE (parseStep fuel (.jexprP 0) ts1)
          let (args, ts3) ← asArgs (parseStep fuel (.jargsLoop [first]) ts2)
          let (_, ts4) ← expectTy ts3 .RPAREN
          parseStep fuel (.jcallLoop (.call acc args)) ts4
      else
        .ok (.re acc, ts)
    | .jargsLoop acc =>
      if checkTy ts .COMMA then do
        let (e, ts1) ← asE (parseStep fuel (.jexprP 0) (ts.drop 1))
        parseStep fuel (.jargsLoop (acc ++ [e])) ts1
      else
        .ok (.rargs acc, ts)

/-- `Parser(tokens).parse()`: parse a whole program. -/
def parseProgram (fuel : Nat) (ts : List Token) : Except PErr (List Stmt) :=
  (asL (parseStep fuel (.jprogram []) ts)).map (·.1)

/-- Parse a single expression from a token list, requiring that all
tokens are consumed (used to state the precedence claims). -/
def parseExprOnly (fuel : Nat) (ts : List Token) : Option Expr :=
  match parseStep fuel (.jexprP 0) ts with
  | .ok (.re e, []) => some e
  | _ => none

/-- A front-end failure: lexing or parsing. -/
inductive FrontErr where
  | lexE (e : LexError)
  | parseE (e : PErr)
deriving Repr, DecidableEq

/-- Tokenize then parse, as `run_code` does before interpreting. -/
def parseCode (fuel : Nat) (code : String) : Except FrontErr (List Stmt) :=
  match tokenize code with
  | .error e => .error (.lexE e)
  | .ok toks =>
    match parseProgram fuel toks with
    | .error e => .error (.parseE e)
    | .ok prog => .ok prog

/-- Tokenize then parse a single expression. -/
def parseExprCode (fuel : Nat) (code : String) : Option Expr :=
  match tokenize code with
  | .error _ => none
  | .ok toks => parseExprOnly fuel toks

/-! ### Values and environments (lang/interpreter.py)

Python environments are mutable objects aliased by closures, so the
store of all allocated environments is explicit: an environment is an
index into the store, an `EnvData` holds the parent index and the
insertion-ordered name/value map. Environments are only ever appended,
so indices are stable. Python `int` is `Int`, Python `float` is `ℚ`
(exact for everything the program can be asked about here), `None` is
`vnull`. A `Function` value records name, parameters, body and the
captured environment index, mirroring the `Function` dataclass. -/

/-- The `Function` dataclass: name, (name, type) parameter tokens, body
statements, captured environment (by store index). -/
structure Function where
  name : String
  params : List (Token × Token)
  body : List Stmt
  closure : Nat
deriving Repr

/-- Runtime values. `vbuiltin` is a host callable (only `print` exists). -/
inductive Value where
  | vnull
  | vbool (b : Bool)
  | vint (n : Int)
  | vfloat (q : ℚ)
  | vstr (s : String)
  | vfunc (f : Function)
  | vbuiltin (name : String)
deriving Repr

/-- One environment: parent link and insertion-ordered bindings. -/
structure EnvData where
  parent : Option Nat
  values : List (String × Value)
deriving Repr

/-- The store of all allocated environments; index 0 is the globals. -/
abbrev Store := List EnvData

/-- Ordered-dict update: overwrite in place if the key exists, else
append (Python dict assignment). -/
def assocUpdate {α : Type} : List (String × α) → String → α → List (String × α)
  | [], n, v => [(n, v)]
  | (k, w) :: rest, n, v =>
    if k = n then (k, v) :: rest else (k, w) :: assocUpdate rest n v

/-- Ordered-dict lookup. -/
def assocGet {α : Type} : List (String × α) → String → Option α
  | [], _ => none
  | (k, w) :: rest, n => if k = n then some w else assocGet rest n

/-- Replace the environment at an index. -/
def storeSet (st : Store) (i : Nat) (ed : EnvData) : Store := st.set i ed

/-- `Env.get`: walk the parent chain for the first binding. The chain is
strictly descending in allocation order, so `st.length` steps suffice;
the fuel only rules out ill-formed stores no execution can produce. -/
def envGetGo : Nat → Store → Nat → String → Option Value
  | 0, _, _, _ => none
  | fuel + 1, st, i, n =>
    match st.get? i with
    | none => none
    | some ed =>
      match assocGet ed.values n with
      | some v => some v
      | none =>
        match ed.parent with
        | some p => envGetGo fuel st p n
        | none => none

/-- `Env.get` (returns `none` for the `NameError` case). -/
def envGet (st : Store) (i : Nat) (n : String) : Option Value :=
  envGetGo (st.length + 1) st i n

/-- `Env.assign`: mutate the nearest scope that already binds the name,
else fail (`none` models the `NameError`). -/
def envAssignGo : Nat → Store → Nat → String → Value → Option Store
  | 0, _, _, _, _ => none
  | fuel + 1, st, i, n, v =>
    match st.get? i with
    | none => none
    | some ed =>
      if (assocGet ed.values n).isSome then
        some (storeSet st i ⟨ed.parent, assocUpdate ed.values n v⟩)
      else
        match ed.parent with
        | some p => envAssignGo fuel st p n v
        | none => none

/-- `Env.assign`. -/
def envAssign (st : Store) (i : Nat) (n : String) (v : Value) : Option Store :=
  envAssignGo (st.length + 1) st i n v

/-- `Env.set`: overwrite a binding already present in this scope;
otherwise try `assign` on the parent and, if that raises `NameError`,
define the name in this scope. -/
def envSet (st : Store) (i : Nat) (n : String) (v : Value) : Store :=
  match st.get? i with
  | none => st
  | some ed =>
    if (assocGet ed.values n).isSome then
      storeSet st i ⟨ed.parent, assocUpdate ed.values n v⟩
    else
      match ed.parent with
      | some p =>
        match envAssign st p n v with
        | some st1 => st1
        | none => storeSet st i ⟨ed.parent, ed.values ++ [(n, v)]⟩
      | none => storeSet st i ⟨ed.parent, ed.values ++ [(n, v)]⟩

/-! ### Value operations (eval_expr helpers) -/

/-- `truthy`: Python `bool(v)`. -/
def truthy : Value → Bool
  | .vnull => false
  | .vbool b => b
  | .vint n => n != 0
  | .vfloat q => q != 0
  | .vstr s => s.length != 0
  | .vfunc _ => true
  | .vbuiltin _ => true

/-- Python `bool` is an `int` subtype: values usable as integers. -/
def asIntV : Value → Option Int
  | .vbool b => some (if b then 1 else 0)
  | .vint n => some n
  | _ => none

/-- Values usable as numbers (rationals stand in for floats). -/
def asQ : Value → Option ℚ
  | .vbool b => some (if b then 1 else 0)
  | .vint n => some (n : ℚ)
  | .vfloat q => some q
  | _ => none

/-- Runtime failures: the exceptions `eval_expr`/`exec_stmt`/`call` can
raise (other than the three control-transfer signals). -/
inductive RTErr where
  | nameError (name : String)
  | arityError (fname : String) (expected got : Nat)
  | callError
  | typeError
  | zeroDivError
  | unsupportedStmt
  | unsupportedBinOp (op : String)
  | unsupportedUnOp (op : String)
deriving Repr, DecidableEq

/-- Python string repetition `s * n`. -/
def strRepeatGo : Nat → String → String
  | 0, _ => ""
  | k + 1, s => s ++ strRepeatGo k s

/-- `s * n` with Python's clamping of non-positive counts. -/
def strRepeat (s : String) (n : Int) : String := strRepeatGo n.toNat s

/-- Lexicographic order on character lists (Python string `<`). -/
def charsLt : List Char → List Char → Bool
  | [], [] => false
  | [], _ :: _ => true
  | _ :: _, [] => false
  | a :: as, b :: bs => a < b || (a == b && charsLt as bs)

/-- Python `left + right`. -/
def pyAdd (l r : Value) : Except RTErr Value :=
  match l, r with
  | .vstr a, .vstr b => .ok (.vstr (a ++ b))
  | _, _ =>
    match asIntV l, asIntV r with
    | some a, some b => .ok (.vint (a + b))
    | _, _ =>
      match asQ l, asQ r with
      | some a, some b => .ok (.vfloat (a + b))
      | _, _ => .error .typeError

/-- Python `left - right`. -/
def pySub (l r : Value) : Except RTErr Value :=
  match asIntV l, asIntV r with
  | some a, some b => .ok (.vint (a - b))
  | _, _ =>
    match asQ l, asQ r with
    | some a, some b => .ok (.vfloat (a - b))
    | _, _ => .error .typeError

/-- Python `left * right` (including string repetition). -/
def pyMul (l r : Value) : Except RTErr Value :=
  match l, r with
  | .vstr s, _ =>
    match asIntV r with
    | some n => .ok (.vstr (strRepeat s n))
    | none => .error .typeError
  | _, .vstr s =>
    match asIntV l with
    | some n => .ok (.vstr (strRepeat s n))
    | none => .error .typeError
  | _, _ =>
    match asIntV l, asIntV r with
    | some a, some b => .ok (.vint (a * b))
    | _, _ =>
      match asQ l, asQ r with
      | some a, some b => .ok (.vfloat (a * b))
      | _, _ => .error .typeError

/-- Python `left / right`: true division, always a float; division by
zero raises. -/
def pyDiv (l r : Value) : Except RTErr Value :=
  match asQ l, asQ r with
  | some a, some b => if b = 0 then .error .zeroDivError else .ok (.vfloat (a / b))
  | _, _ => .error .typeError

/-- Python `left % right`: floored modulo (sign of the divisor). -/
def pyMod (l r : Value) : Except RTErr Value :=
  match asIntV l, asIntV r with
  | some a, some b =>
    if b = 0 then .error .zeroDivError else .ok (.vint (Int.fmod a b))
  | _, _ =>
    match asQ l, asQ r with
    | some a, some b =>
      if b = 0 then .error .zeroDivError
      else .ok (.vfloat (a - b * (⌊a / b⌋ : ℤ)))
    | _, _ => .error .typeError

/-- Python `<` on the values of this language. -/
def pyLtB (l r : Value) : Except RTErr Bool :=
  match l, r with
  | .vstr a, .vstr b => .ok (charsLt a.data b.data)
  | _, _ =>
    match asQ l, asQ r with
    | some a, some b => .ok (decide (a < b))
    | _, _ => .error .typeError

/-- Python `==` (value equality; numeric kinds compare by value, `True`
equals `1`; distinct kinds otherwise compare unequal). -/
def pyEqB (l r : Value) : Bool :=
  match asQ l, asQ r with
  | some a, some b => a == b
  | _, _ =>
    match l, r with
    | .vstr a, .vstr b => a == b
    | .vnull, .vnull => true
    | .vfunc f, .vfunc g =>
      -- Dataclass equality on `Function` compares name, params, body and
      -- closure; bodies of distinct declarations are distinct objects, so
      -- name, params and captured environment identity decide it here.
      f.name == g.name && f.closure == g.closure && f.params == g.params
    | .vbuiltin a, .vbuiltin b => a == b
    | _, _ => false

/-- Dispatch of the non-short-circuit binary operators in `eval_expr`. -/
def applyBin (op : String) (l r : Value) : Except RTErr Value :=
  if op = "+" then pyAdd l r
  else if op = "-" then pySub l r
  else if op = "*" then pyMul l r
  else if op = "/" then pyDiv l r
  else if op = "%" then pyMod l r
  else if op = "<" then (pyLtB l r).map .vbool
  else if op = "<=" then
    match pyLtB r l with
    | .ok b => .ok (.vbool !b)
    | .error e => .error e
  else if op = ">" then pyLtB r l |>.map .vbool
  else if op = ">=" then
    match pyLtB l r with
    | .ok b => .ok (.vbool !b)
    | .error e => .error e
  else if op = "==" then .ok (.vbool (pyEqB l r))
  else if op = "!=" then .ok (.vbool (!pyEqB l r))
  else .error (.unsupportedBinOp op)

/-- Dispatch of the unary operators in `eval_expr`. -/
def applyUn (op : String) (v : Value) : Except RTErr Value :=
  if op = "!" then .ok (.vbool (!truthy v))
  else if op = "-" then
    match v with
    | .vfloat q => .ok (.vfloat (-q))
    | _ =>
      match asIntV v with
      | some n => .ok (.vint (-n))
      | none => .error .typeError
  else .error (.unsupportedUnOp op)

/-- Digit-string to number (`int(tok.value)`; lexemes are all digits). -/
def digitsToNat : List Char → Nat → Nat
  | [], acc => acc
  | c :: cs, acc => digitsToNat cs (acc * 10 + (c.toNat - '0'.toNat))

/-- `float(tok.value)` for a lexeme `digits.digits`, read exactly as a
rational. -/
def floatLexToQ (cs : List Char) : ℚ :=
  let intPart := cs.takeWhile (fun c => !(c == '.'))
  let fracPart := (cs.dropWhile (fun c => !(c == '.'))).drop 1
  (digitsToNat intPart 0 : ℚ) +
    (digitsToNat fracPart 0 : ℚ) / ((10 : ℚ) ^ fracPart.length)

/-- The `unicode_escape` decoding of `_unquote` (the escapes the language
can produce; an unknown escape keeps both characters, as Python does). -/
def unescapeChars : List Char → List Char
  | [] => []
  | '\\' :: c :: rest =>
    (if c == 'n' then ['\n']
     else if c == 't' then ['\t']
     else if c == 'r' then ['\r']
     else if c == '\\' then ['\\']
     else if c == '"' then ['"']
     else if c == '\'' then ['\'']
     else if c == '0' then [Char.ofNat 0]
     else ['\\', c]) ++ unescapeChars rest
  | c :: rest => c :: unescapeChars rest

/-- `_unquote`: strip the surrounding double quotes, then unescape. -/
def unquote (s : String) : String :=
  let cs := s.data
  let inner :=
    if cs.length ≥ 2 && cs.head? == some '"' && cs.getLast? == some '"' then
      (cs.drop 1).take (cs.length - 2)
    else cs
  String.mk (unescapeChars inner)

/-- `literal_from_token`. -/
def literalFromToken (t : Token) : Value :=
  match t.type with
  | .INT => .vint (digitsToNat t.value.data 0)
  | .FLOAT => .vfloat (floatLexToQ t.value.data)
  | .STRING => .vstr (unquote t.value)
  | .KEYWORD =>
    if t.value = "true" then .vbool true
    else if t.value = "false" then .vbool false
    else if t.value = "null" then .vnull
    else .vstr t.value
  | _ => .vstr t.value

/-! ### The interpreter (exec_stmt / eval_expr / Function.call / run)

Python's `ReturnSignal`, `BreakSignal` and `ContinueSignal` exceptions
become the `Outcome` values `oret`, `obrk`, `ocont`; a genuine exception
becomes `rerr`. Every mutually recursive piece of the interpreter is a
case of one fuel-indexed function `step` over a job type, so that
evaluation reduces in the kernel; propagating a non-matching result
mirrors letting the exception unwind. -/

/-- How a statement finishes: fall-through, or one of the three
control-transfer signals. -/
inductive Outcome where
  | onorm
  | oret (v : Value)
  | obrk
  | ocont
deriving Repr

/-- Result of a job: a statement outcome, an expression value, an
argument list, a raised error, or fuel exhaustion. -/
inductive Res where
  | rout (o : Outcome)
  | rval (v : Value)
  | rvals (vs : List Value)
  | rerr (e : RTErr)
  | rtimeout
deriving Repr

/-- Interpreter state: the environment store (index 0 = globals), the
`self.functions` table, and the lines printed so far. -/
structure St where
  store : Store
  funcs : List (String × Function)
  output : List (List Value)
deriving Repr

/-- Interpreter jobs: execute one statement / a statement list in the
given scope / a block (fresh scope), evaluate an expression-or-token /
an argument list, call a function, or run a for-loop whose init already
ran. -/
inductive Job where
  | jstmt (s : Stmt) (env : Nat)
  | jstmts (l : List Stmt) (env : Nat)
  | jblock (l : List Stmt) (env : Nat)
  | jeval (e : ETok) (env : Nat)
  | jargs (l : List Expr) (env : Nat)
  | jcall (f : Function) (args : List Value)
  | jforloop (cond : ETok) (inc : Stmt) (body : Stmt) (env : Nat)

/-- Bind the call arguments to the parameter names with `Env.set` (as
`Function.call` does — note `set`, not a local define). -/
def bindParams : List (Token × Token) → List Value → Nat → Store → Store
  | [], _, _, st => st
  | _, [], _, st => st
  | (p, _) :: ps, a :: as, env, st =>
    bindParams ps as env (envSet st env p.value a)

/-- One interpreter step; each case transcribes the corresponding piece
of lang/interpreter.py. -/
def step : Nat → Job → St → Res × St
  | 0, _, st => (.rtimeout, st)
  | fuel + 1, job, st =>
    match job with
    | .jeval (.tok t) _ => (.rval (literalFromToken t), st)
    | .jeval (.expr e) env =>
      match e with
      | .literal t => (.rval (literalFromToken t), st)
      | .ident t =>
        match envGet st.store env t.value with
        | some v => (.rval v, st)
        | none => (.rerr (.nameError t.value), st)
      | .unary opTok operand =>
        match step fuel (.jeval (.expr operand) env) st with
        | (.rval v, st1) =>
          match applyUn opTok.value v with
          | .ok w => (.rval w, st1)
          | .error e1 => (.rerr e1, st1)
        | other => other
      | .binary l opTok r =>
        if opTok.value = "&&" then
          match step fuel (.jeval (.expr l) env) st with
          | (.rval lv, st1) =>
            if !truthy lv then (.rval (.vbool false), st1)
            else
              match step fuel (.jeval (.expr r) env) st1 with
              | (.rval rv, st2) => (.rval (.vbool (truthy rv)), st2)
              | other => other
          | other => other
        else if opTok.value = "||" then
          match step fuel (.jeval (.expr l) env) st with
          | (.rval lv, st1) =>
            if truthy lv then (.rval (.vbool true), st1)
            else
              match step fuel (.jeval (.expr r) env) st1 with
              | (.rval rv, st2) => (.rval (.vbool (truthy rv)), st2)
              | other => other
          | other => other
        else
          match step fuel (.jeval (.expr l) env) st with
          | (.rval lv, st1) =>
            match step fuel (.jeval (.expr r) env) st1 with
            | (.rval rv, st2) =>
              match applyBin opTok.value lv rv with
              | .ok w => (.rval w, st2)
              | .error e1 => (.rerr e1, st2)
            | other => other
          | other => other
      | .call callee args =>
        match step fuel (.jeval (.expr callee) env) st with
        | (.rval cv, st1) =>
          match step fuel (.jargs args env) st1 with
          | (.rvals vs, st2) =>
            match cv with
            | .vfunc f => step fuel (.jcall f vs) st2
            | .vbuiltin _ => (.rval .vnull, { st2 with output := st2.output ++ [vs] })
            | _ => (.rerr .callError, st2)
          | other => other
        | other => other
    | .jargs [] _ => (.rvals [], st)
    | .jargs (a :: rest) env =>
      match step fuel (.jeval (.expr a) env) st with
      | (.rval v, st1) =>
        match step fuel (.jargs rest env) st1 with
        | (.rvals vs, st2) => (.rvals (v :: vs), st2)
        | other => other
      | other => other
    | .jcall f args =>
      -- Function.call: arity check, local env parented at the closure,
      -- bind params with set, run the body as a block, catch only the
      -- return signal.
      if args.length ≠ f.params.length then
        (.rerr (.arityError f.name f.params.length args.length), st)
      else
        let localId := st.store.length
        let st1 : St := { st with store := st.store ++ [⟨some f.closure, []⟩] }
        let st2 : St := { st1 with store := bindParams f.params args localId st1.store }
        match step fuel (.jblock f.body localId) st2 with
        | (.rout .onorm, st3) => (.rval .vnull, st3)
        | (.rout (.oret v), st3) => (.rval v, st3)
        | other => other
    | .jblock stmts env =>
      -- exec_block: blocks introduce a new scope.
      let blockId := st.store.length
      let st1 : St := { st with store := st.store ++ [⟨some env, []⟩] }
      step fuel (.jstmts stmts blockId) st1
    | .jstmts [] _ => (.rout .onorm, st)
    | .jstmts (s :: rest) env =>
      match step fuel (.jstmt s env) st with
      | (.rout .onorm, st1) => step fuel (.jstmts rest env) st1
      | other => other
    | .jforloop cond inc body env =>
      -- The loop of the ForStmt case: condition, body with continue and
      -- break handlers, and the increment in a finally block (so it also
      -- runs when the body broke, and an exception it raises wins).
      match step fuel (.jeval cond env) st with
      | (.rval c, st1) =>
        if truthy c then
          match step fuel (.jstmt body env) st1 with
          | (.rtimeout, st2) => (.rtimeout, st2)
          | (bodyRes, st2) =>
            match step fuel (.jstmt inc env) st2 with
            | (.rout .onorm, st3) =>
              match bodyRes with
              | .rout .onorm => step fuel (.jforloop cond inc body env) st3
              | .rout .ocont => step fuel (.jforloop cond inc body env) st3
              | .rout .obrk => (.rout .onorm, st3)
              | other => (other, st3)
            | incOther => incOther
        else (.rout .onorm, st1)
      | other => other
    | .jstmt s env =>
      match s with
      | .varDecl nameTok _ init =>
        match step fuel (.jeval init env) st with
        | (.rval v, st1) => (.rout .onorm, { st1 with store := envSet st1.store env nameTok.value v })
        | other => other
      | .assign nameTok value =>
        match step fuel (.jeval value env) st with
        | (.rval v, st1) =>
          match envAssign st1.store env nameTok.value v with
          | some store1 => (.rout .onorm, { st1 with store := store1 })
          | none => (.rerr (.nameError nameTok.value), st1)
        | other => other
      | .ifS cond thenB elseB =>
        match step fuel (.jeval cond env) st with
        | (.rval c, st1) =>
          if truthy c then step fuel (.jstmt thenB env) st1
          else
            match elseB with
            | some eb => step fuel (.jstmt eb env) st1
            | none => (.rout .onorm, st1)
        | other => other
      | .whileS cond body =>
        match step fuel (.jeval cond env) st with
        | (.rval c, st1) =>
          if truthy c then
            match step fuel (.jstmt body env) st1 with
            | (.rout .onorm, st2) => step fuel (.jstmt (.whileS cond body) env) st2
            | (.rout .ocont, st2) => step fuel (.jstmt (.whileS cond body) env) st2
            | (.rout .obrk, st2) => (.rout .onorm, st2)
            | other => other
          else (.rout .onorm, st1)
        | other => other
      | .forS init cond inc body =>
        match step fuel (.jstmt init env) st with
        | (.rout .onorm, st1) => step fuel (.jforloop cond inc body env) st1
        | other => other
      | .ret value =>
        match step fuel (.jeval value env) st with
        | (.rval v, st1) => (.rout (.oret v), st1)
        | other => other
      | .brk => (.rout .obrk, st)
      | .cont => (.rout .ocont, st)
      | .funcDecl _ _ _ => (.rerr .unsupportedStmt, st)
      | .exprStmt e =>
        match step fuel (.jeval (.expr e) env) st with
        | (.rval _, st1) => (.rout .onorm, st1)
        | other => other
      | .block stmts => step fuel (.jblock stmts env) st

/-- The hoisting pass of `run`: register every top-level `FuncDecl` in
the function table and bind it in the globals, in order, before any
statement executes. -/
def hoist : List Stmt → St → St
  | [], st => st
  | .funcDecl nameTok params body :: rest, st =>
    let fn : Function := ⟨nameTok.value, params, body, 0⟩
    let st1 : St := { st with funcs := assocUpdate st.funcs nameTok.value fn }
    let st2 : St := { st1 with store := envSet st1.store 0 nameTok.value (.vfunc fn) }
    hoist rest st2
  | _ :: rest, st => hoist rest st

/-- The top-level execution loop of `run`: every non-`FuncDecl`
statement, in order, against the globals; the first exception (error or
signal) aborts everything. -/
def runTop (fuel : Nat) : List Stmt → St → Res × St
  | [], st => (.rout .onorm, st)
  | s :: rest, st =>
    match s with
    | .funcDecl _ _ _ => runTop fuel rest st
    | _ =>
      match step fuel (.jstmt s 0) st with
      | (.rout .onorm, st1) => runTop fuel rest st1
      | other => other

/-- What a `run` call produces for its caller: a value, a propagated
front-end or runtime exception, or one of the three raw control-transfer
signals escaping `run` itself. -/
inductive RunOut where
  | ok (v : Value)
  | lexErr (e : LexError)
  | parseErr (e : PErr)
  | runtimeErr (e : RTErr)
  | sigRet (v : Value)
  | sigBrk
  | sigCont
  | timeout
deriving Repr

/-- The initial interpreter state: a parentless globals environment with
the `print` builtin bound. -/
def initSt : St :=
  { store := [⟨none, [("print", .vbuiltin "print")]⟩], funcs := [], output := [] }

/-- `Interpreter.run(program, entrypoint)`: hoist, run the top level,
then invoke the entrypoint (when given and declared) with no arguments. -/
def runProgram (fuel : Nat) (prog : List Stmt) (entry : Option String) : RunOut × St :=
  let st1 := hoist prog initSt
  match runTop fuel prog st1 with
  | (.rout .onorm, st2) =>
    match entry with
    | none => (.ok .vnull, st2)
    | some nm =>
      match assocGet st2.funcs nm with
      | none => (.ok .vnull, st2)
      | some f =>
        match step fuel (.jcall f []) st2 with
        | (.rval v, st3) => (.ok v, st3)
        | (.rerr e, st3) => (.runtimeErr e, st3)
        | (.rout (.oret v), st3) => (.sigRet v, st3)
        | (.rout .obrk, st3) => (.sigBrk, st3)
        | (.rout .ocont, st3) => (.sigCont, st3)
        | (.rout .onorm, st3) => (.ok .vnull, st3)
        | (.rvals _, st3) => (.ok .vnull, st3)
        | (.rtimeout, st3) => (.timeout, st3)
  | (.rerr e, st2) => (.runtimeErr e, st2)
  | (.rout (.oret v), st2) => (.sigRet v, st2)
  | (.rout .obrk, st2) => (.sigBrk, st2)
  | (.rout .ocont, st2) => (.sigCont, st2)
  | (.rval _, st2) => (.ok .vnull, st2)
  | (.rvals _, st2) => (.ok .vnull, st2)
  | (.rtimeout, st2) => (.timeout, st2)

/-- `run(code, entrypoint)` / `Interpreter.run_code`: tokenize, parse,
run. -/
def runCode (fuel : Nat) (code : String) (entry : Option String) : RunOut :=
  match tokenize code with
  | .error e => .lexErr e
  | .ok toks =>
    match parseProgram fuel toks with
    | .error e => .parseErr e
    | .ok prog => (runProgram fuel prog entry).1

/-! ### Helper lemmas and example programs -/

/-- `assocUpdate` preserves a pointwise boolean invariant when the new
entry satisfies it. -/
theorem assocUpdate_all {α : Type} (f : String × α → Bool) (l : List (String × α))
    (n : String) (v : α) (hl : l.all f = true) (hv : f (n, v) = true) :
    (assocUpdate l n v).all f = true := by
  induction l with
  | nil => simpa [assocUpdate]
  | cons hd tl ih =>
    obtain ⟨k, w⟩ := hd
    simp only [List.all_cons, Bool.and_eq_true] at hl
    by_cases h : k = n
    · subst h
      simpa [assocUpdate, hv] using hl.2
    · simp only [assocUpdate, if_neg h, List.all_cons, Bool.and_eq_true]
      exact ⟨hl.1, ih hl.2⟩

/-- Every function the hoisting pass registers captures environment 0
(the globals): hoisting only ever inserts functions with `closure = 0`. -/
theorem hoist_all_closure_zero (l : List Stmt) (st : St)
    (h : st.funcs.all (fun q => q.2.closure == 0) = true) :
    ((hoist l st).funcs.all (fun q => q.2.closure == 0)) = true := by
  induction l generalizing st with
  | nil => exact h
  | cons s tl ih =>
    cases s with
    | funcDecl nameTok params body =>
      exact ih _ (assocUpdate_all _ _ _ _ h rfl)
    | varDecl a b c => exact ih _ h
    | assign a b => exact ih _ h
    | ifS a b c => exact ih _ h
    | whileS a b => exact ih _ h
    | forS a b c d => exact ih _ h
    | ret a => exact ih _ h
    | brk => exact ih _ h
    | cont => exact ih _ h
    | exprStmt a => exact ih _ h
    | block a => exact ih _ h

/-- `fn main(): int ... let a = 1; if (true) ... a = 2 ...; return a;`:
the assignment inside the if-block mutates `a` in the enclosing scope. -/
def assignOuterSrc : String :=
  "fn main(): int \x7b let a: int = 1; if (true) \x7b a = 2; \x7d return a; \x7d"

/-- Same program with `let a: int = 2;` in the block instead of an
assignment. -/
def letShadowSrc : String :=
  "fn main(): int \x7b let a: int = 1; if (true) \x7b let a: int = 2; \x7d return a; \x7d"

/-- A `let` inside a block for a name bound nowhere else, read after the
block. -/
def letBlockLocalSrc : String :=
  "fn main(): int \x7b if (true) \x7b let c: int = 1; \x7d return c; \x7d"

/-- `mk` declares a local `c` and returns the top-level function `inc`,
which reads `c`. -/
def mkIncSrc : String :=
  "fn mk(): int \x7b let c: int = 5; return inc; \x7d fn inc(): int \x7b return c; \x7d fn main(): int \x7b let f: int = mk(); return f(); \x7d"

/-- A returned function mutating a global, called twice through the
returned reference. -/
def shareGlobalSrc : String :=
  "let g: int = 0; fn bump(): int \x7b g = g + 1; return g; \x7d fn mk(): int \x7b return bump; \x7d fn main(): int \x7b let f: int = mk(); f(); f(); return g; \x7d"

/-- A function declaration nested inside a function body. -/
def nestedFnSrc : String :=
  "fn outer(): int \x7b fn inner(): int \x7b return 1; \x7d return 2; \x7d fn main(): int \x7b return outer(); \x7d"

/-- The for-loop example exactly as the claim writes it. -/
def forClaimSrc : String :=
  "for (let i:int=0; i<10; i=i+1) \x7b if (i==3) \x7b break; \x7d \x7d"

/-- The same loop in the shape the parser accepts: `i` pre-declared,
assignment as the initializer, `;` after the increment. -/
def forBreakSrc : String :=
  "fn main(): int \x7b let i: int = 0; for (i = 0; i < 10; i = i + 1;) \x7b if (i == 3) \x7b break; \x7d \x7d return i; \x7d"

/-- A for loop whose body `continue`s one iteration. -/
def forContinueSrc : String :=
  "fn main(): int \x7b let i: int = 0; let n: int = 0; for (i = 0; i < 3; i = i + 1;) \x7b if (i == 1) \x7b continue; \x7d n = n + 1; \x7d return n * 10 + i; \x7d"

/-- The claimed two-function entry-point example. -/
def addMainSrc : String :=
  "fn add(a: int, b: int): int \x7b return a + b; \x7d fn main(): int \x7b return add(40, 2); \x7d"

/-- A top-level statement calling a function declared after it. -/
def forwardSrc : String :=
  "let r: int = helper(); fn helper(): int \x7b return 7; \x7d fn main(): int \x7b return r; \x7d"

/-- Mutually recursive top-level functions. -/
def mutualSrc : String :=
  "fn even(n: int): int \x7b if (n == 0) \x7b return 1; \x7d return odd(n - 1); \x7d fn odd(n: int): int \x7b if (n == 0) \x7b return 0; \x7d return even(n - 1); \x7d fn main(): int \x7b return even(4); \x7d"

/-- Does the expression parse to `lit 1 + (lit 2 * lit 3)`? -/
def isAddOfMul : Option Expr → Bool
  | some (.binary (.literal a) op1 (.binary (.literal b) op2 (.literal c))) =>
    a.value == "1" && op1.value == "+" && b.value == "2" &&
      op2.value == "*" && c.value == "3"
  | _ => false

/-- Does the expression parse to `(lit 1 + lit 2) * lit 3`? -/
def isMulOfAdd : Option Expr → Bool
  | some (.binary (.binary (.literal a) op1 (.literal b)) op2 (.literal c)) =>
    a.value == "1" && op1.value == "+" && b.value == "2" &&
      op2.value == "*" && c.value == "3"
  | _ => false

/-- Does the expression parse left-nested, `(1 op 2) op 3`? -/
def leftNested (op : String) : Option Expr → Bool
  | some (.binary (.binary (.literal a) o1 (.literal b)) o2 (.literal c)) =>
    a.value == "1" && o1.value == op && b.value == "2" &&
      o2.value == op && c.value == "3"
  | _ => false

/-- All binary operator lexemes of the language, every precedence level. -/
def allBinOps : List String :=
  ["||", "&&", "==", "!=", "<", "<=", ">", ">=", "+", "-", "*", "/", "%"]

/-! ### The claims -/

/-- C1, counterexample: assigning to a name no reachable scope defines
does not define it in the innermost scope — it fails. The top-level
statement `x = 1;` aborts the run with `NameError` on `x`. -/
theorem c1_counterexample :
    runCode 100 "x = 1;" none = .runtimeErr (.nameError "x") := rfl

/-- C1 (amended): assignment resolves the name by walking outward from
the current scope and mutates the first scope where it already exists
(first two conjuncts: with the name bound in both scopes the inner
binding is the one mutated; bound only in the parent, the parent's is);
if no reachable scope defines the name, the assignment fails with
`NameError` instead of defining it (third conjunct, and the concrete
programs: an assignment in an inner block reaches the enclosing `let`,
and a top-level assignment to an undefined name is a `NameError`). -/
theorem c1_assignment_resolution :
    (∀ p q v : Value,
      envAssign [⟨none, [("x", p)]⟩, ⟨some 0, [("x", q)]⟩] 1 "x" v =
        some [⟨none, [("x", p)]⟩, ⟨some 0, [("x", v)]⟩]) ∧
    (∀ p v : Value,
      envAssign [⟨none, [("x", p)]⟩, ⟨some 0, []⟩] 1 "x" v =
        some [⟨none, [("x", v)]⟩, ⟨some 0, []⟩]) ∧
    (∀ v : Value, envAssign [⟨none, []⟩, ⟨some 0, []⟩] 1 "x" v = none) ∧
    runCode 1000 assignOuterSrc (some "main") = .ok (.vint 2) ∧
    runCode 100 "x = 1;" none = .runtimeErr (.nameError "x") :=
  ⟨fun _ _ _ => rfl, fun _ _ => rfl, fun _ => rfl, rfl, rfl⟩

/-- C2, counterexample: a `let` in an inner block for a name already
bound in an enclosing scope does not shadow — it mutates the enclosing
binding, so the program returns 2 where the claim predicts 1. -/
theorem c2_counterexample :
    runCode 1000 letShadowSrc (some "main") = .ok (.vint 2) := rfl

/-- C2 (amended): a `let` evaluates its initializer in the current
environment, then binds with the lenient `Env.set`: a binding already
present in an enclosing scope is mutated there and no inner binding is
created (first conjunct: the inner scope's map stays empty); only when
no reachable scope binds the name is it defined in the current
innermost scope (second conjunct, and the concrete programs: the
shadow-attempt returns the new value through the mutated outer binding,
and a genuinely block-local `let` is gone after the block). -/
theorem c2_let_semantics :
    (∀ p v : Value,
      envSet [⟨none, [("x", p)]⟩, ⟨some 0, []⟩] 1 "x" v =
        [⟨none, [("x", v)]⟩, ⟨some 0, []⟩]) ∧
    (∀ v : Value,
      envSet [⟨none, []⟩, ⟨some 0, []⟩] 1 "x" v =
        [⟨none, []⟩, ⟨some 0, [("x", v)]⟩]) ∧
    runCode 1000 letShadowSrc (some "main") = .ok (.vint 2) ∧
    runCode 1000 letBlockLocalSrc (some "main") = .runtimeErr (.nameError "c") :=
  ⟨fun _ _ => rfl, fun _ => rfl, rfl, rfl⟩

/-- C3, counterexample: a function returned from another function does
not retain access to the enclosing function's locals: `mk` declares a
local `c` and returns `inc`; calling the returned function fails with
`NameError` on `c` instead of reading it. -/
theorem c3_counterexample :
    runCode 1000 mkIncSrc (some "main") = .runtimeErr (.nameError "c") := rfl

/-- C3 (amended): every function value is created at hoisting time with
the global environment as its captured defining environment (first
conjunct, for every program), so a function returned from another
function shares the globals with every other holder — mutations through
the returned reference are visible globally (second conjunct) — but it
has no access to the returning function's locals (third conjunct), and
a nested `fn` declaration fails at execution (fourth conjunct). -/
theorem c3_closure_semantics :
    (∀ l : List Stmt,
      ((hoist l initSt).funcs.all (fun q => q.2.closure == 0)) = true) ∧
    runCode 1000 shareGlobalSrc (some "main") = .ok (.vint 2) ∧
    runCode 1000 mkIncSrc (some "main") = .runtimeErr (.nameError "c") ∧
    runCode 1000 nestedFnSrc (some "main") = .runtimeErr .unsupportedStmt :=
  ⟨fun l => hoist_all_closure_zero l initSt rfl, rfl, rfl, rfl⟩

/-- C4, counterexample: the claim's example `for (let i:int=0; i<10;
i=i+1) ...` does not parse: the for-initializer is an
assignment-or-expression statement, so the `let` keyword is rejected by
the expression parser. -/
theorem c4_counterexample :
    parseCode 300 forClaimSrc =
      .error (.parseE (.unexpectedTokenInExpr ⟨.KEYWORD, "let", 1, 6⟩)) := rfl

/-- C4 (amended): `for` runs `init` once, then behaves like `while`,
and the increment runs after every iteration including one ended by
`continue`, and once more after a caught `break`: with `i` pre-declared
and the loop written in the accepted form, the break-at-3 loop leaves
`i` at 4 (one increment past the break point), and the continue loop
(skipping one `n = n + 1`) ends with `n = 2` and `i = 3`. -/
theorem c4_for_semantics :
    runCode 2000 forBreakSrc (some "main") = .ok (.vint 4) ∧
    runCode 2000 forContinueSrc (some "main") = .ok (.vint 23) :=
  ⟨rfl, rfl⟩

/-- C5, counterexample: a top-level `return` is not converted into a
terminal error — the raw return signal escapes the `run` call. -/
theorem c5_counterexample :
    runCode 100 "return 1;" none = .sigRet (.vint 1) := rfl

/-- C5 (amended): `return` is caught at the nearest call boundary and
`break`/`continue` at the nearest loop boundary (fourth and fifth
conjuncts); but outside any such boundary the three signals are not
intercepted: at top level they escape the `run` call as raw signals
(first three conjuncts) rather than surfacing as terminal errors. -/
theorem c5_signal_semantics :
    runCode 100 "return 1;" none = .sigRet (.vint 1) ∧
    runCode 100 "break;" none = .sigBrk ∧
    runCode 100 "continue;" none = .sigCont ∧
    runCode 1000 "fn main(): int \x7b return 5; \x7d" (some "main") = .ok (.vint 5) ∧
    runCode 1000 "fn main(): int \x7b while (true) \x7b break; \x7d return 9; \x7d"
      (some "main") = .ok (.vint 9) :=
  ⟨rfl, rfl, rfl, rfl, rfl⟩

/-- C6, counterexample: an unterminated block comment does not make
`tokenize` fail: `/*` with no closing `*/` lexes as the two operator
tokens `/` and `*`. -/
theorem c6_counterexample :
    tokenize "/*" = .ok [⟨.OP, "/", 1, 1⟩, ⟨.OP, "*", 1, 2⟩] := rfl

/-- C6 (amended): an unterminated string literal and an unmatched
character abort `tokenize` with a SyntaxError at the first bad
position, producing no tokens (first two conjuncts); an unterminated
block comment, however, does not fail — its `/` and `*` are lexed as
ordinary operator tokens and scanning continues (third conjunct). -/
theorem c6_lexer_failure_modes :
    tokenize "\"abc" = .error (.err "Unexpected character: \"") ∧
    tokenize "x = 5$;" = .error (.err "Unexpected character: $") ∧
    tokenize "/*" = .ok [⟨.OP, "/", 1, 1⟩, ⟨.OP, "*", 1, 2⟩] :=
  ⟨rfl, rfl, rfl⟩

/-- C7, counterexample: the SyntaxError carries no line/column: the
same unrecognized character at position (1,1) and at position (3,1)
produces identical error values, so the error cannot carry the
character's position. -/
theorem c7_counterexample :
    tokenize "@" = tokenize "\n\n@" ∧
    tokenize "@" = .error (.err "Unexpected character: @") :=
  ⟨rfl, rfl⟩

/-- C7 (amended): on its first unrecognized character `tokenize` fails
with a SyntaxError whose message carries the offending character — and
nothing else: sources placing the same bad character at different lines
and columns yield the very same error value. -/
theorem c7_error_payload :
    tokenize "x = 5$;" = .error (.err "Unexpected character: $") ∧
    tokenize "@" = .error (.err "Unexpected character: @") ∧
    tokenize "\n\n@" = .error (.err "Unexpected character: @") ∧
    tokenize "  @" = .error (.err "Unexpected character: @") :=
  ⟨rfl, rfl, rfl, rfl⟩

/-- C8: `run` hoists every top-level `FuncDecl` before executing any
statement, then runs the non-function top level in order, then invokes
the entry point when given and declared: the add/main example yields
42; a top-level statement may call a function declared later in the
text (hoisting before execution), and mutual recursion between
top-level functions works; with no entry-point name, or a name that is
not a declared function, the result is the absence value. -/
theorem c8_run_phases :
    runCode 1000 addMainSrc (some "main") = .ok (.vint 42) ∧
    runCode 1000 forwardSrc (some "main") = .ok (.vint 7) ∧
    runCode 1000 mutualSrc (some "main") = .ok (.vint 1) ∧
    runCode 1000 addMainSrc none = .ok .vnull ∧
    runCode 1000 addMainSrc (some "nomain") = .ok .vnull :=
  ⟨rfl, rfl, rfl, rfl, rfl⟩

/-- C9: `1 + 2 * 3` parses as an addition whose right operand is the
multiplication node; `(1 + 2) * 3` parses as a multiplication whose
left operand is the addition node; and every binary level is
left-associative: for each binary operator `op`, `1 op 2 op 3` parses
as `(1 op 2) op 3`. -/
theorem c9_precedence :
    isAddOfMul (parseExprCode 100 "1 + 2 * 3") = true ∧
    isMulOfAdd (parseExprCode 100 "(1 + 2) * 3") = true ∧
    (allBinOps.all fun op =>
      leftNested op (parseExprCode 100 ("1 " ++ op ++ " 2 " ++ op ++ " 3"))) = true :=
  ⟨rfl, rfl, rfl⟩

/-- C10: `/` on two integer operands is true division producing a float
value with the exact quotient, not C-style truncating division:
evaluating `5 / 2` yields the float 5/2 = 2.5 (and not the integer 2),
and in general dividing the integers a by b (b nonzero) yields exactly
the rational a/b as a float. -/
theorem c10_true_division :
    runCode 1000 "fn main(): int \x7b return 5 / 2; \x7d" (some "main") =
      .ok (.vfloat (5 / 2 : ℚ)) ∧
    (5 / 2 : ℚ) = 2.5 ∧
    (Value.vfloat (5 / 2 : ℚ) ≠ .vint 2) ∧
    (∀ a b : Int,
      applyBin "/" (.vint a) (.vint b) =
        if (b : ℚ) = 0 then .error .zeroDivError
        else .ok (.vfloat ((a : ℚ) / (b : ℚ)))) :=
  ⟨rfl, by norm_num, fun h => Value.noConfusion h, fun _ _ => rfl⟩

end CLite
